import Mathlib

/-!
Verification development for the pipeline-investment dashboard
(src/app.py and src/main.py).

The numeric model uses exact rationals for the float arithmetic of the
source; every definition below is a direct transcription of the cited
source lines.  Per-iteration loops become fuel/structural recursions and
the try/except paths of the batch analyzer, as well as the Python
exceptions raised by division by zero, are made explicit.
-/

namespace PipelineInvest

/-- Python abs applied to a rational value. -/
def pyabs (q : ℚ) : ℚ := if q < 0 then -q else q

/-- The manual NPV summation of app.py (line 137 and line 177):
sum of cf / (1+rate)**t over the enumerated cash flows, starting the
enumeration at index t. -/
def npvAux (r : ℚ) : ℕ → List ℚ → ℚ
  | _, [] => 0
  | t, cf :: rest => cf / (1 + r) ^ t + npvAux r (t + 1) rest

/-- NPV of a cash-flow list at rate r (enumeration from index 0). -/
def npv_of (r : ℚ) (flows : List ℚ) : ℚ := npvAux r 0 flows

/-- The derivative summation of app.py line 139:
sum of -t * cf / (1+rate)**(t+1) over the enumerated cash flows. -/
def dnpvAux (r : ℚ) : ℕ → List ℚ → ℚ
  | _, [] => 0
  | t, cf :: rest => -(t : ℚ) * cf / (1 + r) ^ (t + 1) + dnpvAux r (t + 1) rest

/-- Derivative of the NPV of a cash-flow list at rate r. -/
def dnpv_of (r : ℚ) (flows : List ℚ) : ℚ := dnpvAux r 0 flows

/-- Which of the return statements of calculate_internal_irr (app.py
lines 133-142) produced the result: the convergence test at line 138,
the zero-derivative return at line 140, or the line 142 return after the
loop exhausts its 100 iterations. -/
inductive IRRExit where
  | converged (rate : ℚ)
  | zeroDeriv
  | capped (rate : ℚ)

/-- The Newton-Raphson loop of calculate_internal_irr, instrumented with
the exit that fired.  Fuel counts the remaining loop iterations. -/
def irrAux (flows : List ℚ) : ℕ → ℚ → IRRExit
  | 0, rate => IRRExit.capped rate
  | n + 1, rate =>
    let npv := npv_of rate flows
    if pyabs npv < 1 / 1000000 then IRRExit.converged rate
    else
      let d := dnpv_of rate flows
      if d = 0 then IRRExit.zeroDeriv
      else irrAux flows n (rate - npv / d)

/-- The numeric value each exit of calculate_internal_irr returns:
line 138 returns the current rate, line 140 returns 0, and line 142
returns the final rate when its magnitude is below 100 and 0 otherwise. -/
def exitValue : IRRExit → ℚ
  | IRRExit.converged r => r
  | IRRExit.zeroDeriv => 0
  | IRRExit.capped r => if pyabs r < 100 then r else 0

/-- calculate_internal_irr (app.py lines 133-142).  The guess argument
defaults to 0.1 at every call site. -/
def calculate_internal_irr (cash_flows : List ℚ) (guess : ℚ) : ℚ :=
  exitValue (irrAux cash_flows 100 guess)

/-- The discounted-payback loop of simulate_project (app.py lines
180-192): walk the flows with index t and running discounted sum cum,
returning the interpolated payback at the first index t greater than 0
where the running sum turns non-negative, and the sentinel 999 when the
loop finishes without a break. -/
def dppAux (r : ℚ) : ℕ → ℚ → List ℚ → ℚ
  | _, _, [] => 999
  | t, cum, cf :: rest =>
    let dc := cf / (1 + r) ^ t
    let cum2 := cum + dc
    if 0 < t ∧ 0 ≤ cum2 then
      if dc ≠ 0 then (t : ℚ) - 1 + pyabs cum / dc else (t : ℚ)
    else dppAux r (t + 1) cum2 rest

/-- Discounted payback period of a cash-flow list at rate r. -/
def dpp_of (r : ℚ) (flows : List ℚ) : ℚ := dppAux r 0 0 flows

/-- The result record returned by simulate_project (app.py lines
194-199). -/
structure SimResult where
  npv : ℚ
  irr : ℚ
  dpp : ℚ
  net_inv : ℚ
  ocf : ℚ
  margin : ℚ
  sga : ℚ
  ebit : ℚ
  flows : List ℚ
  c1 : ℚ
  c2 : ℚ
  c3 : ℚ

/-- simulate_project (app.py lines 144-199). -/
def simulate_project (inv_len inv_amt contrib other_profit vol rev cost
    num_jeon discount_rate tax_rate : ℚ) (period : ℕ)
    (cost_maint cost_admin_jeon cost_admin_m : ℚ) : SimResult :=
  let profit := rev - cost
  let net_inv := inv_amt - contrib
  let cost_1 := inv_len * cost_maint
  let cost_2 := inv_len * cost_admin_m
  let cost_3 := num_jeon * cost_admin_jeon
  let total_sga := cost_1 + cost_2 + cost_3
  let dep := inv_amt / (period : ℚ)
  let ebit := (profit + other_profit) - total_sga - dep
  let nopat := ebit * (1 - tax_rate)
  let ocf := nopat + dep
  let cash_flows := -net_inv :: List.replicate period ocf
  let npv := npv_of discount_rate cash_flows
  let irr := calculate_internal_irr cash_flows (1 / 10)
  let dpp := dpp_of discount_rate cash_flows
  ⟨npv, irr, dpp, net_inv, ocf, profit, total_sga, ebit, cash_flows,
    cost_1, cost_2, cost_3⟩

/-- Modelled from the spec: the independent term-by-term sum of
flows[t] / (1+r)^t over all indices of the timeline. -/
def npvSpec (r : ℚ) (flows : List ℚ) : ℚ :=
  ∑ t ∈ Finset.range flows.length, flows.getD t 0 / (1 + r) ^ t

/-- Modelled from the spec: accumulate discounted flows year by year;
the payback is the first index t greater than 0 at which the running sum
becomes non-negative, interpolated to (t-1) + |prior cumulative| /
discounted flow at t (the uninterpolated t when that flow is zero), and
an explicit none marker when the running sum never turns non-negative
within the horizon. -/
def dppSpecAux (r : ℚ) : ℕ → ℚ → List ℚ → Option ℚ
  | _, _, [] => none
  | t, cum, cf :: rest =>
    let dc := cf / (1 + r) ^ t
    let cum2 := cum + dc
    if 0 < t ∧ 0 ≤ cum2 then
      some (if dc ≠ 0 then (t : ℚ) - 1 + pyabs cum / dc else (t : ℚ))
    else dppSpecAux r (t + 1) cum2 rest

/-- Spec-side discounted payback period with an explicit marker. -/
def dppSpec (r : ℚ) (flows : List ℚ) : Option ℚ := dppSpecAux r 0 0 flows

/-- The usage-class test of app.py line 90: any of the four residential
keywords occurs as a substring of the usage string. -/
def is_residential (usage : String) : Bool :=
  (["공동", "단독", "주택", "아파트"].map String.data).any
    (fun k => decide (k <:+: usage.data))

/-- Annual SG&A of one batch row (app.py lines 87-94): maintenance cost
plus the admin cost charged on the class-dependent basis. -/
def row_total_sga (cost_maint_m cost_admin_hh cost_admin_m len_m households : ℚ)
    (usage : String) : ℚ :=
  len_m * cost_maint_m +
    (if is_residential usage then households * cost_admin_hh
     else len_m * cost_admin_m)

/-- One parsed spreadsheet row of the batch analyzer. -/
structure RowData where
  investment : ℚ
  contribution : ℚ
  current_vol : ℚ
  current_profit : ℚ
  len_m : ℚ
  households : ℚ
  usage : String

/-- The pvifa computation of app.py lines 46-49. -/
def pvifa_of (target_irr : ℚ) (period : ℕ) : ℚ :=
  if target_irr = 0 then (period : ℚ)
  else (1 - 1 / (1 + target_irr) ^ period) / target_irr

/-- The loop body of calculate_all_rows (app.py lines 65-117) as a pure
per-row function producing the value appended to the results column.
The three explicit zero-denominator guards are the ZeroDivisionError
paths of the body; the surrounding try/except appends 0 in those cases. -/
def calc_row (pvifa tax_rate : ℚ) (period : ℕ)
    (cost_maint_m cost_admin_hh cost_admin_m margin_override : ℚ)
    (row : RowData) : ℚ :=
  if row.current_vol ≤ 0 ∨ row.investment ≤ 0 then 0
  else if 0 < row.investment - row.contribution ∧ pvifa = 0 then 0
  else if (period : ℚ) = 0 then 0
  else if tax_rate = 1 then 0
  else
    let net_investment := row.investment - row.contribution
    let required_capital_recovery :=
      if net_investment ≤ 0 then 0 else net_investment / pvifa
    let total_sga :=
      row_total_sga cost_maint_m cost_admin_hh cost_admin_m row.len_m
        row.households row.usage
    let depreciation := row.investment / (period : ℚ)
    let required_ebit := (required_capital_recovery - depreciation) / (1 - tax_rate)
    let required_gross_margin := required_ebit + total_sga + depreciation
    let calculated_margin := row.current_profit / row.current_vol
    let final_margin :=
      if 0 < margin_override then margin_override else calculated_margin
    if final_margin ≤ 0 then 0
    else max 0 (required_gross_margin / final_margin)

/-- The results column written by calculate_all_rows (app.py line 119):
one calc_row value per input row. -/
def calculate_all_rows_results (target_irr tax_rate : ℚ) (period : ℕ)
    (cost_maint_m cost_admin_hh cost_admin_m margin_override : ℚ)
    (rows : List RowData) : List ℚ :=
  rows.map
    (calc_row (pvifa_of target_irr period) tax_rate period cost_maint_m
      cost_admin_hh cost_admin_m margin_override)

/-- The NPV-zero verification of app.py lines 373-375: sell final_vol at
final_margin, recompute the after-tax operating cash flow with the same
SG&A, depreciation and tax logic, and check OCF * pvifa against the net
investment. -/
def verify_npv_calc (pvifa tax_rate : ℚ) (period : ℕ)
    (total_sga final_margin investment contribution final_vol : ℚ) : ℚ :=
  let net_inv := investment - contribution
  let dep := investment / (period : ℚ)
  let verify_margin := final_vol * final_margin
  let verify_ocf := (verify_margin - total_sga - dep) * (1 - tax_rate) + dep
  verify_ocf * pvifa - net_inv

/-- The policy constant TARGET_IRR = 0.0615 of main.py line 34. -/
def TARGET_IRR : ℚ := 615 / 10000

/-- The policy constant TAX_RATE = 0.209 of main.py line 35. -/
def TAX_RATE : ℚ := 209 / 1000

/-- The policy constant PERIOD = 30 of main.py line 36. -/
def PERIOD : ℕ := 30

/-- The pvifa of main.py line 39, at the fixed policy constants. -/
def pvifa_main : ℚ := (1 - 1 / (1 + TARGET_IRR) ^ PERIOD) / TARGET_IRR

/-- The back-solve core of calculate_irr_target_volume (main.py lines
66-105): the minimum sales volume required to reach the target IRR,
computed from a row with the fixed policy constants. -/
def required_volume_main (investment contribution annual_sga unit_margin : ℚ) : ℚ :=
  let net_investment := investment - contribution
  let depreciation := investment / (PERIOD : ℚ)
  let required_ocf := net_investment / pvifa_main
  let required_pretax_profit := (required_ocf - depreciation) / (1 - TAX_RATE)
  let required_gross_margin := required_pretax_profit + annual_sga + depreciation
  required_gross_margin / unit_margin

/-- Exact division of the Python evaluation model: division raises
ZeroDivisionError on a zero denominator, modelled as none. -/
def qdiv (a b : ℚ) : Option ℚ := if b = 0 then none else some (a / b)

/-- Exception-aware NPV summation: none when any division raises. -/
def npvAuxE (r : ℚ) : ℕ → List ℚ → Option ℚ
  | _, [] => some 0
  | t, cf :: rest =>
    (qdiv cf ((1 + r) ^ t)).bind fun x =>
      (npvAuxE r (t + 1) rest).bind fun s => some (x + s)

/-- Exception-aware derivative summation. -/
def dnpvAuxE (r : ℚ) : ℕ → List ℚ → Option ℚ
  | _, [] => some 0
  | t, cf :: rest =>
    (qdiv (-(t : ℚ) * cf) ((1 + r) ^ (t + 1))).bind fun x =>
      (dnpvAuxE r (t + 1) rest).bind fun s => some (x + s)

/-- Exception-aware Newton-Raphson loop of calculate_internal_irr. -/
def irrAuxE (flows : List ℚ) : ℕ → ℚ → Option ℚ
  | 0, rate => some (if pyabs rate < 100 then rate else 0)
  | n + 1, rate =>
    (npvAuxE rate 0 flows).bind fun npv =>
      if pyabs npv < 1 / 1000000 then some rate
      else
        (dnpvAuxE rate 0 flows).bind fun d =>
          if d = 0 then some 0
          else irrAuxE flows n (rate - npv / d)

/-- Exception-aware discounted-payback loop. -/
def dppAuxE (r : ℚ) : ℕ → ℚ → List ℚ → Option ℚ
  | _, _, [] => some 999
  | t, cum, cf :: rest =>
    (qdiv cf ((1 + r) ^ t)).bind fun dc =>
      let cum2 := cum + dc
      if 0 < t ∧ 0 ≤ cum2 then
        some (if dc ≠ 0 then (t : ℚ) - 1 + pyabs cum / dc else (t : ℚ))
      else dppAuxE r (t + 1) cum2 rest

/-- simulate_project under the Python exception model: the result is
none exactly when some division in the source raises ZeroDivisionError. -/
def simulate_projectE (inv_len inv_amt contrib other_profit vol rev cost
    num_jeon discount_rate tax_rate : ℚ) (period : ℕ)
    (cost_maint cost_admin_jeon cost_admin_m : ℚ) : Option SimResult :=
  let profit := rev - cost
  let net_inv := inv_amt - contrib
  let cost_1 := inv_len * cost_maint
  let cost_2 := inv_len * cost_admin_m
  let cost_3 := num_jeon * cost_admin_jeon
  let total_sga := cost_1 + cost_2 + cost_3
  (qdiv inv_amt (period : ℚ)).bind fun dep =>
    let ebit := (profit + other_profit) - total_sga - dep
    let nopat := ebit * (1 - tax_rate)
    let ocf := nopat + dep
    let cash_flows := -net_inv :: List.replicate period ocf
    (npvAuxE discount_rate 0 cash_flows).bind fun npv =>
      (irrAuxE cash_flows 100 (1 / 10)).bind fun irr =>
        (dppAuxE discount_rate 0 0 cash_flows).bind fun dpp =>
          some ⟨npv, irr, dpp, net_inv, ocf, profit, total_sga, ebit,
            cash_flows, cost_1, cost_2, cost_3⟩

/-- Present-value factor sum: geomAux r t n adds 1/(1+r)^i for the n
indices i = t, ..., t+n-1. -/
def geomAux (r : ℚ) : ℕ → ℕ → ℚ
  | _, 0 => 0
  | t, n + 1 => 1 / (1 + r) ^ t + geomAux r (t + 1) n

/-- The accumulator form of the manual NPV summation agrees with the
index-irrelevant finite sum over the list positions. -/
theorem npvAux_eq_sum (r : ℚ) (flows : List ℚ) : ∀ t : ℕ,
    npvAux r t flows
      = ∑ i ∈ Finset.range flows.length, flows.getD i 0 / (1 + r) ^ (t + i) := by
  induction flows with
  | nil => intro t; simp [npvAux]
  | cons cf rest ih =>
    intro t
    have h1 : npvAux r t (cf :: rest) = cf / (1 + r) ^ t + npvAux r (t + 1) rest := rfl
    rw [h1, ih (t + 1), List.length_cons, Finset.sum_range_succ']
    simp only [List.getD_cons_succ, List.getD_cons_zero, Nat.add_zero]
    rw [add_comm]
    congr 1
    refine Finset.sum_congr rfl fun i _ => ?_
    have h2 : t + 1 + i = t + (i + 1) := by omega
    rw [h2]

/-- The manual NPV equals the spec-side term-by-term sum. -/
theorem npv_of_eq_npvSpec (r : ℚ) (flows : List ℚ) :
    npv_of r flows = npvSpec r flows := by
  rw [npv_of, npvSpec, npvAux_eq_sum]
  simp only [Nat.zero_add]

/-- NPV of a constant timeline is the constant times the factor sum. -/
theorem npvAux_replicate (r c : ℚ) : ∀ (n t : ℕ),
    npvAux r t (List.replicate n c) = c * geomAux r t n := by
  intro n
  induction n with
  | zero => intro t; simp [npvAux, geomAux, List.replicate]
  | succ m ih =>
    intro t
    rw [List.replicate_succ]
    have h1 : npvAux r t (c :: List.replicate m c)
        = c / (1 + r) ^ t + npvAux r (t + 1) (List.replicate m c) := rfl
    rw [h1, ih (t + 1)]
    simp only [geomAux]
    ring

/-- The factor sum is non-negative for rates above -1. -/
theorem geomAux_nonneg (r : ℚ) (hr : -1 < r) : ∀ (n t : ℕ), 0 ≤ geomAux r t n := by
  intro n
  induction n with
  | zero => intro t; simp [geomAux]
  | succ m ih =>
    intro t
    have hp : (0 : ℚ) < (1 + r) ^ t := pow_pos (by linarith) t
    have h1 : (0 : ℚ) ≤ 1 / (1 + r) ^ t := le_of_lt (by positivity)
    simp only [geomAux]
    exact add_nonneg h1 (ih (t + 1))

/-- The factor sum is positive for rates above -1 and at least one term. -/
theorem geomAux_pos (r : ℚ) (hr : -1 < r) (t n : ℕ) (hn : 1 ≤ n) :
    0 < geomAux r t n := by
  obtain ⟨m, rfl⟩ : ∃ m, n = m + 1 := ⟨n - 1, by omega⟩
  have hp : (0 : ℚ) < (1 + r) ^ t := pow_pos (by linarith) t
  have h1 : (0 : ℚ) < 1 / (1 + r) ^ t := by positivity
  have h2 := geomAux_nonneg r hr m (t + 1)
  simp only [geomAux]
  linarith

/-- Closed form of the npv field of simulate_project. -/
theorem simulate_npv_closed (inv_len inv_amt contrib other_profit vol rev cost
    num_jeon discount_rate tax_rate : ℚ) (period : ℕ)
    (cost_maint cost_admin_jeon cost_admin_m : ℚ) :
    (simulate_project inv_len inv_amt contrib other_profit vol rev cost num_jeon
        discount_rate tax_rate period cost_maint cost_admin_jeon cost_admin_m).npv
      = -(inv_amt - contrib)
        + (((rev - cost) + other_profit
            - (inv_len * cost_maint + inv_len * cost_admin_m + num_jeon * cost_admin_jeon)
            - inv_amt / (period : ℚ)) * (1 - tax_rate) + inv_amt / (period : ℚ))
          * geomAux discount_rate 1 period := by
  simp only [simulate_project, npv_of]
  rw [npvAux, npvAux_replicate]
  norm_num

/-- The payback loop of the source equals the spec-side accumulation
with the sentinel 999 substituted for the marker. -/
theorem dppAux_eq_specAux (r : ℚ) : ∀ (flows : List ℚ) (t : ℕ) (cum : ℚ),
    dppAux r t cum flows = (dppSpecAux r t cum flows).getD 999 := by
  intro flows
  induction flows with
  | nil => intro t cum; rfl
  | cons cf rest ih =>
    intro t cum
    simp only [dppAux, dppSpecAux]
    by_cases h : 0 < t ∧ 0 ≤ cum + cf / (1 + r) ^ t
    · rw [if_pos h, if_pos h]
      rfl
    · rw [if_neg h, if_neg h]
      exact ih (t + 1) _

/-- Any converged exit of the Newton-Raphson loop satisfies the
convergence test at the returned rate. -/
theorem irrAux_converged_npv (flows : List ℚ) : ∀ (fuel : ℕ) (r0 r : ℚ),
    irrAux flows fuel r0 = IRRExit.converged r →
      pyabs (npv_of r flows) < 1 / 1000000 := by
  intro fuel
  induction fuel with
  | zero =>
    intro r0 r h
    simp [irrAux] at h
  | succ n ih =>
    intro r0 r h
    simp only [irrAux] at h
    by_cases h1 : pyabs (npv_of r0 flows) < 1 / 1000000
    · rw [if_pos h1] at h
      injection h with h3
      subst h3
      exact h1
    · rw [if_neg h1] at h
      by_cases h2 : dnpv_of r0 flows = 0
      · rw [if_pos h2] at h
        simp at h
      · rw [if_neg h2] at h
        exact ih _ _ h

/-- One Newton-Raphson iteration that passes the convergence test. -/
theorem irrAux_succ_converged (flows : List ℚ) (n : ℕ) (rate : ℚ)
    (h : pyabs (npv_of rate flows) < 1 / 1000000) :
    irrAux flows (n + 1) rate = IRRExit.converged rate := by
  simp only [irrAux]
  rw [if_pos h]

/-- One Newton-Raphson iteration that hits a zero derivative. -/
theorem irrAux_succ_zeroDeriv (flows : List ℚ) (n : ℕ) (rate : ℚ)
    (h1 : ¬ pyabs (npv_of rate flows) < 1 / 1000000)
    (h2 : dnpv_of rate flows = 0) :
    irrAux flows (n + 1) rate = IRRExit.zeroDeriv := by
  simp only [irrAux]
  rw [if_neg h1, if_pos h2]

/-- One Newton-Raphson iteration that performs the update step. -/
theorem irrAux_succ_step (flows : List ℚ) (n : ℕ) (rate : ℚ)
    (h1 : ¬ pyabs (npv_of rate flows) < 1 / 1000000)
    (h2 : ¬ dnpv_of rate flows = 0) :
    irrAux flows (n + 1) rate
      = irrAux flows n (rate - npv_of rate flows / dnpv_of rate flows) := by
  simp only [irrAux]
  rw [if_neg h1, if_neg h2]

/-- The pvifa at the fixed policy constants of main.py is positive. -/
theorem pvifa_main_pos : 0 < pvifa_main := by
  have h1 : (1 : ℚ) < 1 + TARGET_IRR := by norm_num [TARGET_IRR]
  have h2 : (1 : ℚ) < (1 + TARGET_IRR) ^ PERIOD :=
    one_lt_pow₀ h1 (by norm_num [PERIOD])
  have h3 : 1 / ((1 + TARGET_IRR) ^ PERIOD) < 1 := by
    rw [div_lt_one (by linarith)]
    exact h2
  have h4 : (0 : ℚ) < TARGET_IRR := by norm_num [TARGET_IRR]
  rw [pvifa_main]
  exact div_pos (by linarith) h4

/-- The back-solved volume closes the loop algebraically for a nonzero
unit margin and positive net investment. -/
theorem verify_required_volume (annual_sga unit_margin investment contribution : ℚ)
    (hm : unit_margin ≠ 0) :
    verify_npv_calc pvifa_main TAX_RATE PERIOD annual_sga unit_margin
      investment contribution
      (required_volume_main investment contribution annual_sga unit_margin) = 0 := by
  have hpv : pvifa_main ≠ 0 := ne_of_gt pvifa_main_pos
  have htax : (1 : ℚ) - TAX_RATE ≠ 0 := by norm_num [TAX_RATE]
  simp only [verify_npv_calc, required_volume_main]
  field_simp
  ring

set_option maxRecDepth 8000
set_option maxHeartbeats 1000000

/-- C1 counterexample: the all-zero cash-flow sequence has all entries
at least 0 (and all at most 0), yet calculate_internal_irr returns the
plain numeric rate 0.1, not any undefined marker. -/
theorem irr_sign_uniform_numeric_cex :
    calculate_internal_irr [0, 0] (1 / 10) = 1 / 10 ∧ (1 / 10 : ℚ) ≠ 0 := by
  constructor
  · rw [calculate_internal_irr,
      irrAux_succ_converged [0, 0] 99 (1 / 10) (by norm_num [npv_of, npvAux, pyabs])]
    rfl
  · norm_num

/-- C1 amended: calculate_internal_irr has no undefined marker and is
numeric in every degenerate case: a sign-uniform sequence can return the
seed rate 0.1 or even a large converged rate, and a zero derivative
returns the number 0, indistinguishable from a genuine 0 percent rate. -/
theorem irr_numeric_fallbacks :
    calculate_internal_irr [0, 0] (1 / 10) = 1 / 10 ∧
    calculate_internal_irr [1] (1 / 10) = 0 ∧
    calculate_internal_irr [0, 1 / 1000] (1 / 10) = 5627 / 5 := by
  refine ⟨?_, ?_, ?_⟩
  · rw [calculate_internal_irr,
      irrAux_succ_converged [0, 0] 99 (1 / 10) (by norm_num [npv_of, npvAux, pyabs])]
    rfl
  · rw [calculate_internal_irr,
      irrAux_succ_zeroDeriv [1] 99 (1 / 10)
        (by norm_num [npv_of, npvAux, pyabs]) (by norm_num [dnpv_of, dnpvAux])]
    rfl
  · have step : ∀ n : ℕ, ∀ a b : ℚ,
        ¬ pyabs (npv_of a [0, 1 / 1000]) < 1 / 1000000 →
        ¬ dnpv_of a [0, 1 / 1000] = 0 →
        a - npv_of a [0, 1 / 1000] / dnpv_of a [0, 1 / 1000] = b →
        irrAux [0, 1 / 1000] (n + 1) a = irrAux [0, 1 / 1000] n b := by
      intro n a b h1 h2 h3
      rw [irrAux_succ_step [0, 1 / 1000] n a h1 h2, h3]
    rw [calculate_internal_irr,
      step 99 (1 / 10) (6 / 5) (by norm_num [npv_of, npvAux, pyabs])
        (by norm_num [dnpv_of, dnpvAux])
        (by norm_num [npv_of, npvAux, dnpv_of, dnpvAux]),
      step 98 (6 / 5) (17 / 5) (by norm_num [npv_of, npvAux, pyabs])
        (by norm_num [dnpv_of, dnpvAux])
        (by norm_num [npv_of, npvAux, dnpv_of, dnpvAux]),
      step 97 (17 / 5) (39 / 5) (by norm_num [npv_of, npvAux, pyabs])
        (by norm_num [dnpv_of, dnpvAux])
        (by norm_num [npv_of, npvAux, dnpv_of, dnpvAux]),
      step 96 (39 / 5) (83 / 5) (by norm_num [npv_of, npvAux, pyabs])
        (by norm_num [dnpv_of, dnpvAux])
        (by norm_num [npv_of, npvAux, dnpv_of, dnpvAux]),
      step 95 (83 / 5) (171 / 5) (by norm_num [npv_of, npvAux, pyabs])
        (by norm_num [dnpv_of, dnpvAux])
        (by norm_num [npv_of, npvAux, dnpv_of, dnpvAux]),
      step 94 (171 / 5) (347 / 5) (by norm_num [npv_of, npvAux, pyabs])
        (by norm_num [dnpv_of, dnpvAux])
        (by norm_num [npv_of, npvAux, dnpv_of, dnpvAux]),
      step 93 (347 / 5) (699 / 5) (by norm_num [npv_of, npvAux, pyabs])
        (by norm_num [dnpv_of, dnpvAux])
        (by norm_num [npv_of, npvAux, dnpv_of, dnpvAux]),
      step 92 (699 / 5) (1403 / 5) (by norm_num [npv_of, npvAux, pyabs])
        (by norm_num [dnpv_of, dnpvAux])
        (by norm_num [npv_of, npvAux, dnpv_of, dnpvAux]),
      step 91 (1403 / 5) (2811 / 5) (by norm_num [npv_of, npvAux, pyabs])
        (by norm_num [dnpv_of, dnpvAux])
        (by norm_num [npv_of, npvAux, dnpv_of, dnpvAux]),
      step 90 (2811 / 5) (5627 / 5) (by norm_num [npv_of, npvAux, pyabs])
        (by norm_num [dnpv_of, dnpvAux])
        (by norm_num [npv_of, npvAux, dnpv_of, dnpvAux]),
      irrAux_succ_converged [0, 1 / 1000] 89 (5627 / 5)
        (by norm_num [npv_of, npvAux, pyabs])]
    rfl

/-- C2: for an analysis period of N at least 1, the simulate_project
timeline has exactly N+1 entries, entry 0 equals the negated net
investment -(investment - contribution) and is the only entry drawn from
it, and entries 1 through N all equal the constant operating cash flow,
the after-tax income plus depreciation. -/
theorem timeline_shape (inv_len inv_amt contrib other_profit vol rev cost
    num_jeon discount_rate tax_rate : ℚ) (period : ℕ)
    (cost_maint cost_admin_jeon cost_admin_m : ℚ) (hN : 1 ≤ period) :
    ((simulate_project inv_len inv_amt contrib other_profit vol rev cost num_jeon
        discount_rate tax_rate period cost_maint cost_admin_jeon cost_admin_m).flows).length
      = period + 1 ∧
    ((simulate_project inv_len inv_amt contrib other_profit vol rev cost num_jeon
        discount_rate tax_rate period cost_maint cost_admin_jeon cost_admin_m).flows).head?
      = some (-(inv_amt - contrib)) ∧
    ((simulate_project inv_len inv_amt contrib other_profit vol rev cost num_jeon
        discount_rate tax_rate period cost_maint cost_admin_jeon cost_admin_m).flows).tail
      = List.replicate period
          ((simulate_project inv_len inv_amt contrib other_profit vol rev cost num_jeon
            discount_rate tax_rate period cost_maint cost_admin_jeon cost_admin_m).ocf) ∧
    (simulate_project inv_len inv_amt contrib other_profit vol rev cost num_jeon
        discount_rate tax_rate period cost_maint cost_admin_jeon cost_admin_m).ocf
      = (simulate_project inv_len inv_amt contrib other_profit vol rev cost num_jeon
          discount_rate tax_rate period cost_maint cost_admin_jeon cost_admin_m).ebit
          * (1 - tax_rate) + inv_amt / (period : ℚ) := by
  refine ⟨?_, ?_, ?_, ?_⟩ <;> simp [simulate_project]

/-- C2 witness at a concrete input with period 1. -/
theorem timeline_shape_w :
    ((simulate_project 0 7 2 0 0 0 0 0 0 0 1 0 0 0).flows).length = 1 + 1 ∧
    ((simulate_project 0 7 2 0 0 0 0 0 0 0 1 0 0 0).flows).head? = some (-(7 - 2)) ∧
    ((simulate_project 0 7 2 0 0 0 0 0 0 0 1 0 0 0).flows).tail
      = List.replicate 1 ((simulate_project 0 7 2 0 0 0 0 0 0 0 1 0 0 0).ocf) ∧
    (simulate_project 0 7 2 0 0 0 0 0 0 0 1 0 0 0).ocf
      = (simulate_project 0 7 2 0 0 0 0 0 0 0 1 0 0 0).ebit * (1 - 0)
          + 7 / ((1 : ℕ) : ℚ) :=
  timeline_shape 0 7 2 0 0 0 0 0 0 0 1 0 0 0 (le_refl 1)

/-- C3: the npv field of simulate_project equals the independent
term-by-term sum of flows[t] / (1+r)^t over the whole timeline. -/
theorem npv_manual_sum (inv_len inv_amt contrib other_profit vol rev cost
    num_jeon discount_rate tax_rate : ℚ) (period : ℕ)
    (cost_maint cost_admin_jeon cost_admin_m : ℚ) (hr : -1 < discount_rate) :
    (simulate_project inv_len inv_amt contrib other_profit vol rev cost num_jeon
        discount_rate tax_rate period cost_maint cost_admin_jeon cost_admin_m).npv
      = npvSpec discount_rate
          ((simulate_project inv_len inv_amt contrib other_profit vol rev cost num_jeon
            discount_rate tax_rate period cost_maint cost_admin_jeon cost_admin_m).flows) :=
  npv_of_eq_npvSpec discount_rate _

/-- C3 witness at a concrete input. -/
theorem npv_manual_sum_w :
    (simulate_project 0 3 0 0 0 0 0 0 0 0 1 0 0 0).npv
      = npvSpec 0 ((simulate_project 0 3 0 0 0 0 0 0 0 0 1 0 0 0).flows) :=
  npv_manual_sum 0 3 0 0 0 0 0 0 0 0 1 0 0 0 (by norm_num)

/-- C4 counterexample: for the all-positive sequence [1] the routine
returns the numeric rate 0 (through the zero-derivative exit), and the
NPV at that returned rate is 1, far outside the 1e-6 tolerance. -/
theorem irr_root_property_cex :
    calculate_internal_irr [1] (1 / 10) = 0 ∧
    ¬ pyabs (npv_of 0 [1]) < 1 / 1000000 := by
  constructor
  · rw [calculate_internal_irr,
      irrAux_succ_zeroDeriv [1] 99 (1 / 10)
        (by norm_num [npv_of, npvAux, pyabs]) (by norm_num [dnpv_of, dnpvAux])]
    rfl
  · norm_num [npv_of, npvAux, pyabs]

/-- C4 amended: whenever the Newton-Raphson loop exits through its
convergence test (rather than the zero-derivative or iteration-cap
fallbacks), the returned rate satisfies the 1e-6 root tolerance; the
solver is seeded at 0.1 with a 100-iteration cap. -/
theorem irr_converged_root (flows : List ℚ) (r : ℚ)
    (h : irrAux flows 100 (1 / 10) = IRRExit.converged r) :
    calculate_internal_irr flows (1 / 10) = r ∧
    pyabs (npv_of r flows) < 1 / 1000000 := by
  constructor
  · rw [calculate_internal_irr, h]
    rfl
  · exact irrAux_converged_npv flows 100 (1 / 10) r h

/-- C4 witness: a concrete converged run of the solver. -/
theorem irr_converged_root_w :
    calculate_internal_irr [-1, 11 / 10] (1 / 10) = 1 / 10 ∧
    pyabs (npv_of (1 / 10) [-1, 11 / 10]) < 1 / 1000000 :=
  irr_converged_root [-1, 11 / 10] (1 / 10)
    (irrAux_succ_converged [-1, 11 / 10] 99 (1 / 10)
      (by norm_num [npv_of, npvAux, pyabs]))

/-- C5 counterexample: a timeline whose discounted running sum never
turns non-negative makes simulate_project report the numeric sentinel
999 in the dpp field, not an explicit marker. -/
theorem dpp_sentinel_cex :
    (simulate_project 0 1 0 0 0 0 0 0 0 0 1 0 0 0).dpp = 999 ∧
    dppSpec 0 ((simulate_project 0 1 0 0 0 0 0 0 0 0 1 0 0 0).flows) = none := by
  constructor
  · simp only [simulate_project]
    norm_num [dpp_of, dppAux, pyabs, List.replicate]
  · simp only [simulate_project]
    norm_num [dppSpec, dppSpecAux, pyabs, List.replicate]

/-- C5 amended: the payback loop realizes the spec-side first-crossing
accumulation with interpolation, except that the no-crossing marker is
replaced by the numeric sentinel 999 (and a zero discounted flow at the
crossing yields the uninterpolated index t). -/
theorem dpp_first_crossing (r : ℚ) (flows : List ℚ) :
    dpp_of r flows = (dppSpec r flows).getD 999 :=
  dppAux_eq_specAux r flows 0 0

/-- C6 counterexample: simulate_project charges all three SG&A
components at once; with unit rates and unit quantities its sga field is
3, while maintenance plus either single admin basis would be 2. -/
theorem sga_triple_sum_cex :
    (simulate_project 1 0 0 0 0 0 0 1 0 0 1 1 1 1).sga = 3 ∧
    (simulate_project 1 0 0 0 0 0 0 1 0 0 1 1 1 1).sga ≠ 1 * 1 + 1 * 1 := by
  constructor <;> norm_num [simulate_project]

/-- C6 amended: in the batch analyzer the SG&A is maintenance plus
exactly one admin basis chosen by the residential-keyword test and is
non-negative for non-negative inputs; the simulator instead sums
maintenance and both admin bases unconditionally, with a non-negative
SG&A held constant across all years of the timeline. -/
theorem sga_policy (cost_maint_m cost_admin_hh cost_admin_m len_m households : ℚ)
    (usage : String)
    (inv_len inv_amt contrib other_profit vol rev cost num_jeon
      discount_rate tax_rate : ℚ) (period : ℕ)
    (h1 : 0 ≤ cost_maint_m) (h2 : 0 ≤ cost_admin_hh) (h3 : 0 ≤ cost_admin_m)
    (h4 : 0 ≤ len_m) (h5 : 0 ≤ households)
    (h6 : 0 ≤ inv_len) (h7 : 0 ≤ num_jeon) :
    (is_residential usage = true →
      row_total_sga cost_maint_m cost_admin_hh cost_admin_m len_m households usage
        = len_m * cost_maint_m + households * cost_admin_hh) ∧
    (is_residential usage = false →
      row_total_sga cost_maint_m cost_admin_hh cost_admin_m len_m households usage
        = len_m * cost_maint_m + len_m * cost_admin_m) ∧
    0 ≤ row_total_sga cost_maint_m cost_admin_hh cost_admin_m len_m households usage ∧
    (simulate_project inv_len inv_amt contrib other_profit vol rev cost num_jeon
        discount_rate tax_rate period cost_maint_m cost_admin_hh cost_admin_m).sga
      = inv_len * cost_maint_m + inv_len * cost_admin_m + num_jeon * cost_admin_hh ∧
    0 ≤ (simulate_project inv_len inv_amt contrib other_profit vol rev cost num_jeon
        discount_rate tax_rate period cost_maint_m cost_admin_hh cost_admin_m).sga ∧
    ((simulate_project inv_len inv_amt contrib other_profit vol rev cost num_jeon
        discount_rate tax_rate period cost_maint_m cost_admin_hh cost_admin_m).flows).tail
      = List.replicate period
          ((simulate_project inv_len inv_amt contrib other_profit vol rev cost num_jeon
            discount_rate tax_rate period cost_maint_m cost_admin_hh cost_admin_m).ocf) := by
  refine ⟨fun h => ?_, fun h => ?_, ?_, ?_, ?_, ?_⟩
  · simp [row_total_sga, h]
  · simp [row_total_sga, h]
  · rw [row_total_sga]
    split_ifs
    · linarith [mul_nonneg h4 h1, mul_nonneg h5 h2]
    · linarith [mul_nonneg h4 h1, mul_nonneg h4 h3]
  · simp [simulate_project]
  · simp only [simulate_project]
    linarith [mul_nonneg h6 h1, mul_nonneg h6 h3, mul_nonneg h7 h2]
  · simp [simulate_project]

/-- C6 witness at unit inputs. -/
theorem sga_policy_w :
    (is_residential "X" = true →
      row_total_sga 1 1 1 1 1 "X" = 1 * 1 + 1 * 1) ∧
    (is_residential "X" = false →
      row_total_sga 1 1 1 1 1 "X" = 1 * 1 + 1 * 1) ∧
    0 ≤ row_total_sga 1 1 1 1 1 "X" ∧
    (simulate_project 1 0 0 0 0 0 0 1 0 0 2 1 1 1).sga = 1 * 1 + 1 * 1 + 1 * 1 ∧
    0 ≤ (simulate_project 1 0 0 0 0 0 0 1 0 0 2 1 1 1).sga ∧
    ((simulate_project 1 0 0 0 0 0 0 1 0 0 2 1 1 1).flows).tail
      = List.replicate 2 ((simulate_project 1 0 0 0 0 0 0 1 0 0 2 1 1 1).ocf) :=
  sga_policy 1 1 1 1 1 "X" 1 0 0 0 0 0 0 1 0 0 2
    (by norm_num) (by norm_num) (by norm_num) (by norm_num) (by norm_num)
    (by norm_num) (by norm_num)

/-- C7 counterexample: at analysis period 0 the unguarded depreciation
division of simulate_project raises ZeroDivisionError, so the Python
evaluation model yields none instead of a result. -/
theorem simulate_total_cex :
    simulate_projectE 1 1 1 1 1 1 1 1 1 1 0 1 1 1 = none := by
  simp [simulate_projectE, qdiv]

/-- C7 amended: simulate_project is not total; no denominator is
checked.  With analysis period 0 the depreciation division raises for
every input, and with discount rate -1 and period at least 1 the NPV
summation raises. -/
theorem simulate_division_raises (inv_len inv_amt contrib other_profit vol rev cost
    num_jeon discount_rate tax_rate : ℚ) (period : ℕ)
    (cost_maint cost_admin_jeon cost_admin_m : ℚ) :
    (period = 0 →
      simulate_projectE inv_len inv_amt contrib other_profit vol rev cost num_jeon
        discount_rate tax_rate period cost_maint cost_admin_jeon cost_admin_m = none) ∧
    (1 ≤ period → discount_rate = -1 →
      simulate_projectE inv_len inv_amt contrib other_profit vol rev cost num_jeon
        discount_rate tax_rate period cost_maint cost_admin_jeon cost_admin_m = none) := by
  constructor
  · rintro rfl
    simp [simulate_projectE, qdiv]
  · intro hN hr
    subst hr
    obtain ⟨n, rfl⟩ : ∃ n, period = n + 1 := ⟨period - 1, by omega⟩
    have hne : ((n + 1 : ℕ) : ℚ) ≠ 0 := Nat.cast_ne_zero.mpr (Nat.succ_ne_zero n)
    norm_num [simulate_projectE, qdiv, hne, npvAuxE, List.replicate_succ]

/-- C7 witness: concrete raising inputs for both scenarios. -/
theorem simulate_division_raises_w :
    simulate_projectE 0 2 0 0 0 0 0 0 0 0 0 0 0 0 = none ∧
    simulate_projectE 0 2 0 0 0 0 0 0 (-1) 0 1 0 0 0 = none :=
  ⟨(simulate_division_raises 0 2 0 0 0 0 0 0 0 0 0 0 0 0).1 rfl,
   (simulate_division_raises 0 2 0 0 0 0 0 0 (-1) 0 1 0 0 0).2 (le_refl 1) rfl⟩

/-- C8: for a row with positive net investment, positive sales volume
and positive unit margin, selling exactly the back-solved minimum volume
at that margin, with the same SG&A, depreciation and tax logic, gives an
operating cash flow whose NPV at the target IRR is zero, that is,
OCF times PVIFA equals the net investment. -/
theorem backsolve_roundtrip (investment contribution annual_sga current_vol
    current_profit : ℚ)
    (hnet : 0 < investment - contribution) (hvol : 0 < current_vol)
    (hmargin : 0 < current_profit / current_vol) :
    verify_npv_calc pvifa_main TAX_RATE PERIOD annual_sga
      (current_profit / current_vol) investment contribution
      (required_volume_main investment contribution annual_sga
        (current_profit / current_vol)) = 0 :=
  verify_required_volume annual_sga (current_profit / current_vol)
    investment contribution (ne_of_gt hmargin)

/-- C8 witness at a concrete profitable row. -/
theorem backsolve_roundtrip_w :
    verify_npv_calc pvifa_main TAX_RATE PERIOD 5 (20 / 10) 100 10
      (required_volume_main 100 10 5 (20 / 10)) = 0 :=
  backsolve_roundtrip 100 10 5 10 20 (by norm_num) (by norm_num) (by norm_num)

/-- C9: with everything else fixed, tax rate below 1, discount rate
above -1 and period at least 1, increasing the annual revenue strictly
increases the npv field of simulate_project. -/
theorem npv_strict_mono_revenue (inv_len inv_amt contrib other_profit vol rev1 rev2
    cost num_jeon discount_rate tax_rate : ℚ) (period : ℕ)
    (cost_maint cost_admin_jeon cost_admin_m : ℚ)
    (hrev : rev1 < rev2) (htax : tax_rate < 1) (hr : -1 < discount_rate)
    (hN : 1 ≤ period) :
    (simulate_project inv_len inv_amt contrib other_profit vol rev1 cost num_jeon
        discount_rate tax_rate period cost_maint cost_admin_jeon cost_admin_m).npv
      < (simulate_project inv_len inv_amt contrib other_profit vol rev2 cost num_jeon
        discount_rate tax_rate period cost_maint cost_admin_jeon cost_admin_m).npv := by
  rw [simulate_npv_closed, simulate_npv_closed]
  have hS := geomAux_pos discount_rate hr 1 period hN
  have hd : (0 : ℚ) < (rev2 - rev1) * (1 - tax_rate) :=
    mul_pos (by linarith) (by linarith)
  nlinarith [mul_pos hd hS]

/-- C9 witness at a concrete pair of revenues. -/
theorem npv_strict_mono_revenue_w :
    (simulate_project 0 0 0 0 0 0 0 0 0 0 1 0 0 0).npv
      < (simulate_project 0 0 0 0 0 1 0 0 0 0 1 0 0 0).npv :=
  npv_strict_mono_revenue 0 0 0 0 0 0 1 0 0 0 0 1 0 0 0
    (by norm_num) (by norm_num) (by norm_num) (le_refl 1)

/-- C10: every value the batch back-solve writes into the
minimum-economic-volume results column is non-negative: guarded rows get
0 and the rest get max 0 of the required volume. -/
theorem min_volume_nonneg (target_irr tax_rate : ℚ) (period : ℕ)
    (cost_maint_m cost_admin_hh cost_admin_m margin_override : ℚ)
    (rows : List RowData) (v : ℚ)
    (hv : v ∈ calculate_all_rows_results target_irr tax_rate period cost_maint_m
      cost_admin_hh cost_admin_m margin_override rows) : 0 ≤ v := by
  rw [calculate_all_rows_results] at hv
  obtain ⟨row, -, rfl⟩ := List.mem_map.mp hv
  simp only [calc_row]
  split_ifs
  all_goals first
    | exact le_refl 0
    | exact le_max_left 0 _

/-- C10 witness at a concrete singleton row list. -/
theorem min_volume_nonneg_w :
    0 ≤ calc_row (pvifa_of 0 1) 0 1 0 0 0 0 ⟨1, 0, 1, 1, 1, 1, "A"⟩ :=
  min_volume_nonneg 0 0 1 0 0 0 0 [⟨1, 0, 1, 1, 1, 1, "A"⟩] _
    (by simp [calculate_all_rows_results])

end PipelineInvest
